import Mathlib

/-!
Verification of the melee-blow effect resolution engine of `src/mon-blows.c`
(Angband monster melee module).

The module is embedded shallowly:

* The mutable `melee_effect_handler_context_t` becomes the structure `Ctx`;
  the player and monster state reached through it become `Player` and
  `Monster`, restricted to the fields the handlers read or write.
* External collaborators that live outside `src/` are either abstracted into
  the `Ext` record (armor/elemental mitigation curves, the `adj_dex_safe`
  table, timer caps, the global life-drain percentage) or modelled from the
  spec as small functions (`take_hit`, `player_inc_timed`, `player_exp_lose`,
  one-unit stack removal).
* Random draws (`randint0`, `randint1`, `damroll`) and external boolean
  outcomes (death after damage, observation flags returned through
  `effect_simple`'s ident pointer) become explicit fields of the `Oracle`
  record, universally quantified in the theorems.
* Side effects on the world that the handlers only trigger (messages,
  monster learning, inventory damage, materialising stolen gold as objects)
  carry no state the handlers later read; the quantities the claims are
  about (gold stolen, experience removed, the stolen/eaten object, the
  earthquake trigger) are recorded in event fields of `Ctx`.
-/

namespace MonBlows

/-- Inventory object, restricted to the fields the melee handlers consult:
artifact flag, edibility, whether the tval can carry charges, charge count
(`pval`), the object kind's level, and stack size. -/
structure Obj where
  artifact : Bool
  edible : Bool
  canCharges : Bool
  pval : Nat
  kindLevel : Nat
  number : Nat
deriving DecidableEq, Repr

/-- Player state reached through the context: hit points, death flag,
experience, gold, character level, saving-throw skill, dexterity stat index,
relevant object flags, timed-status timers (indexed by TMD constant),
position, and the pack inventory. -/
structure Player where
  hp : Int
  is_dead : Bool
  exp : Nat
  au : Nat
  lev : Nat
  skill_save : Nat
  stat_ind_dex : Nat
  hold_life : Bool
  resist_disen : Bool
  timed : Nat → Nat
  px : Int
  py : Int
  inven : List (Option Obj)

/-- Attacking monster state the handlers touch: current and maximum hit
points. -/
structure Monster where
  hp : Int
  maxhp : Int
deriving DecidableEq, Repr

/-- The melee effect handler context (`melee_effect_handler_context_t`),
plus event-recording fields (`goldStolen`, `stolen`, `eaten`, `quake`,
`expLost`) standing for the external side effects the handlers trigger. -/
structure Ctx where
  p : Player
  mon : Monster
  method_phys : Bool
  damage : Int
  ac : Int
  rlev : Nat
  obvious : Bool
  blinked : Bool
  do_break : Bool
  goldStolen : Nat
  stolen : Option Obj
  eaten : Option Obj
  quake : Option Nat
  expLost : Nat

/-- External collaborators abstracted as functions: the armor mitigation
curve `adjust_dam_armor`, the elemental mitigation `adjust_dam` (keyed by GF
type), the per-type timer maximum used by the timed-status collaborator, the
`adj_dex_safe` table, and `z_info->life_drain_percent`.  The two mitigation
curves return `Nat` because the damage-mitigation collaborators never return
negative damage. -/
structure Ext where
  adjust_dam_armor : Int → Int → Nat
  adjust_dam : Nat → Int → Nat
  timedMax : Nat → Nat
  adj_dex_safe : Nat → Nat
  life_drain_percent : Nat

/-- Random draws and external boolean outcomes consumed by one handler
invocation: `dies` is whether the player is dead after `take_hit`,
`roll100` is `randint0(100)`, `roll3` is `randint0(3)`, `r25` and `r3000`
are `randint1(25)` and `randint1(3000)`, `rA` stands for the
`randint1(...)` amount draws, `rDam` for a `damroll` result, `slots` for
the `randint0(pack_size)` slot draws, `quakeX`/`quakeY` for the player's
position after the earthquake collaborator runs, and `obs1`..`obs5` for the
observation flags returned through `effect_simple`'s ident pointer. -/
structure Oracle where
  dies : Bool
  roll100 : Nat
  roll3 : Nat
  r25 : Nat
  r3000 : Nat
  rA : Nat
  rDam : Nat
  slots : List Nat
  quakeX : Int
  quakeY : Int
  obs1 : Bool
  obs2 : Bool
  obs3 : Bool
  obs4 : Bool
  obs5 : Bool

/-- A melee effect handler: mutates the context given the external
collaborators and the oracle of random draws. -/
def Handler : Type := Ext → Oracle → Ctx → Ctx

/- GF_, TMD_, OF_ and STAT_ constants; the concrete numbers are immaterial,
only distinctness is used. -/

def GF_ACID : Nat := 0
def GF_ELEC : Nat := 1
def GF_FIRE : Nat := 2
def GF_COLD : Nat := 3
def GF_POIS : Nat := 4

def TMD_BLIND : Nat := 0
def TMD_CONFUSED : Nat := 1
def TMD_AFRAID : Nat := 2
def TMD_PARALYZED : Nat := 3
def TMD_POISONED : Nat := 4
def TMD_IMAGE : Nat := 5

def OF_PROT_BLIND : Nat := 0
def OF_PROT_CONF : Nat := 1
def OF_PROT_FEAR : Nat := 2
def OF_FREE_ACT : Nat := 3

def STAT_STR : Nat := 0
def STAT_INT : Nat := 1
def STAT_WIS : Nat := 2
def STAT_DEX : Nat := 3
def STAT_CON : Nat := 4

/-- Modelled from the spec: the apply-damage-and-check-death collaborator
(`take_hit`, defined in player-util.c, not under src/).  It reduces the
player's hit points by the damage; whether the player dies depends on state
outside this module, so death is the oracle bit `dies`. -/
def take_hit (p : Player) (dam : Int) (dies : Bool) : Player :=
  { p with hp := p.hp - dam, is_dead := p.is_dead || dies }

/-- Modelled from the spec: the increase-timed-status collaborator
(`player_inc_timed`, defined in player-timed.c, not under src/).  It
increases the named timer by the given amount saturating at the per-type
maximum, and reports whether the timer actually changed (an already-maxed
timer does not change). -/
def player_inc_timed (ext : Ext) (p : Player) (type amount : Nat) :
    Player × Bool :=
  let told := p.timed type
  let tnew := min (told + amount) (ext.timedMax type)
  ({ p with timed := fun t => if t = type then tnew else p.timed t },
   tnew != told)

/-- Modelled from the spec: the generic-experience-loss collaborator
(`player_exp_lose`, not under src/): removes the given amount of
experience. -/
def player_exp_lose (p : Player) (amount : Nat) : Player :=
  { p with exp := p.exp - amount }

/-- Modelled from the spec: the remove-one-unit-from-slot collaborator
(`gear_object_for_use`, not under src/): removes one unit from the stack in
slot `i`, emptying the slot when the stack had a single unit. -/
def removeOneAt (inven : List (Option Obj)) (i : Nat) : List (Option Obj) :=
  match inven.getD i none with
  | none => inven
  | some ob =>
      inven.set i
        (if ob.number ≤ 1 then none
         else some { ob with number := ob.number - 1 })

/-- Replace the charge count of the object in slot `i`. -/
def setPval (inven : List (Option Obj)) (i : Nat) (v : Nat) :
    List (Option Obj) :=
  match inven.getD i none with
  | none => inven
  | some ob => inven.set i (some { ob with pval := v })

/-- The gold amount computed by the theft branch of
`melee_effect_handler_EAT_GOLD`: `(au / 10) + randint1(25)`, raised to a
minimum of 2, recomputed as `(au / 20) + randint1(3000)` when above 5000,
and clamped down to the gold held. -/
def eatGoldAmount (au r25 r3000 : Nat) : Nat :=
  let gold := au / 10 + r25
  let gold := if gold < 2 then 2 else gold
  let gold := if gold > 5000 then au / 20 + r3000 else gold
  if gold > au then au else gold

/-- The steal amount as the spec words it: `floor(currentGold/10) +
random(1..25)`, clamped to a minimum of 2; recomputed as
`floor(currentGold/20) + random(1..3000)` if the naive amount exceeds 5000;
never more than the gold currently held. -/
def eatGoldAmountSpec (au r25 r3000 : Nat) : Nat :=
  min au
    (if 5000 < au / 10 + r25 then au / 20 + r3000
     else max 2 (au / 10 + r25))

/-- The bounded random-slot scan of `melee_effect_handler_EAT_ITEM`: walk
the slot draws, skip empty slots and artifacts, and return the first
eligible slot with its object. -/
def eatItemScan (inven : List (Option Obj)) : List Nat → Option (Nat × Obj)
  | [] => none
  | i :: rest =>
      match inven.getD i none with
      | none => eatItemScan inven rest
      | some ob =>
          if ob.artifact then eatItemScan inven rest else some (i, ob)

/-- The bounded random-slot scan of `melee_effect_handler_EAT_FOOD`: walk
the slot draws, skip empty slots and inedible objects, and return the first
eligible slot with its object. -/
def eatFoodScan (inven : List (Option Obj)) : List Nat → Option (Nat × Obj)
  | [] => none
  | i :: rest =>
      match inven.getD i none with
      | none => eatFoodScan inven rest
      | some ob =>
          if ob.edible then some (i, ob) else eatFoodScan inven rest

/-- The bounded random-slot scan of `melee_effect_handler_DRAIN_CHARGES`:
walk the slot draws and return the first slot holding a charge-bearing
object with at least one charge. -/
def drainChargesScan (inven : List (Option Obj)) :
    List Nat → Option (Nat × Obj)
  | [] => none
  | i :: rest =>
      match inven.getD i none with
      | none => drainChargesScan inven rest
      | some ob =>
          if ob.canCharges && decide (0 < ob.pval) then some (i, ob)
          else drainChargesScan inven rest

/-- `melee_effect_elemental`: mark obvious for pure elements, compute the
armor-mitigated physical damage (with a +50 armor bonus), zero it when the
blow method deals no physical damage, compute the elemental-mitigated
damage, keep the larger of the two, and apply it when positive
(inventory damage and monster learning are external side effects with no
state in this model). -/
def melee_effect_elemental (ext : Ext) (o : Oracle) (ctx : Ctx)
    (type : Nat) (pure_element : Bool) : Ctx :=
  let ctx := if pure_element then { ctx with obvious := true } else ctx
  let physical_dam : Int := ext.adjust_dam_armor ctx.damage (ctx.ac + 50)
  let physical_dam : Int := if ctx.method_phys then physical_dam else 0
  let elemental_dam : Int := ext.adjust_dam type ctx.damage
  let damage := if physical_dam > elemental_dam then physical_dam
                else elemental_dam
  let p := if damage > 0 then take_hit ctx.p damage o.dies else ctx.p
  { ctx with damage := damage, p := p }

/-- `melee_effect_timed`: apply the raw damage, stop if the player died,
otherwise either succeed a requested saving throw (marking obvious) or
increase the named timer, marking obvious when the timer changed. -/
def melee_effect_timed (ext : Ext) (o : Oracle) (ctx : Ctx)
    (type amount _of_flag : Nat) (attempt_save : Bool) : Ctx :=
  let p := take_hit ctx.p ctx.damage o.dies
  if p.is_dead then { ctx with p := p }
  else if attempt_save && decide (o.roll100 < p.skill_save) then
    { ctx with p := p, obvious := true }
  else
    let r := player_inc_timed ext p type amount
    { ctx with p := r.1, obvious := ctx.obvious || r.2 }

/-- `melee_effect_stat`: apply the raw damage, stop if the player died,
otherwise run the generic stat-drain effect, which reports an observation
flag through the obvious pointer. -/
def melee_effect_stat (o : Oracle) (ctx : Ctx) (_stat : Nat) : Ctx :=
  let p := take_hit ctx.p ctx.damage o.dies
  if p.is_dead then { ctx with p := p }
  else { ctx with p := p, obvious := ctx.obvious || o.obs1 }

/-- `melee_effect_experience`: mark obvious, apply the raw damage, stop if
the player died; if the player holds life-force protection and the resist
roll succeeds the drain is fully negated; otherwise remove
`drain_amount + (exp / 100) * life_drain_percent` experience, only a tenth
of it when the player holds the protective trait. -/
def melee_effect_experience (ext : Ext) (o : Oracle) (ctx : Ctx)
    (chance drain_amount : Nat) : Ctx :=
  let ctx := { ctx with obvious := true }
  let p := take_hit ctx.p ctx.damage o.dies
  if p.is_dead then { ctx with p := p }
  else if p.hold_life && decide (o.roll100 < chance) then { ctx with p := p }
  else
    let d := drain_amount + (p.exp / 100) * ext.life_drain_percent
    if p.hold_life then
      { ctx with p := player_exp_lose p (d / 10), expLost := d / 10 }
    else
      { ctx with p := player_exp_lose p d, expLost := d }

/-- `melee_effect_handler_NONE`: mark obvious, zero the damage. -/
def melee_effect_handler_NONE : Handler := fun _ _ ctx =>
  { ctx with obvious := true, damage := 0 }

/-- `melee_effect_handler_HURT`: mark obvious, armor-mitigate the damage,
apply it. -/
def melee_effect_handler_HURT : Handler := fun ext o ctx =>
  let ctx := { ctx with obvious := true }
  let damage : Int := ext.adjust_dam_armor ctx.damage ctx.ac
  { ctx with damage := damage, p := take_hit ctx.p damage o.dies }

/-- `melee_effect_handler_POISON`: run the non-pure elemental family for
poison, stop if the player died, then apply the poison timer, marking
obvious when the timer changed. -/
def melee_effect_handler_POISON : Handler := fun ext o ctx =>
  let ctx := melee_effect_elemental ext o ctx GF_POIS false
  if ctx.p.is_dead then ctx
  else
    let r := player_inc_timed ext ctx.p TMD_POISONED (5 + o.rA)
    { ctx with p := r.1, obvious := ctx.obvious || r.2 }

/-- `melee_effect_handler_DISENCHANT`: apply the raw damage, stop if the
player died, run the disenchant effect unless the player resists. -/
def melee_effect_handler_DISENCHANT : Handler := fun _ o ctx =>
  let p := take_hit ctx.p ctx.damage o.dies
  if p.is_dead then { ctx with p := p }
  else if p.resist_disen then { ctx with p := p }
  else { ctx with p := p, obvious := ctx.obvious || o.obs1 }

/-- `melee_effect_handler_DRAIN_CHARGES`: apply the raw damage, stop if the
player died, scan up to 10 random slots for a charged wand/staff; on the
first hit drain `rlev / (kindLevel + 2) + 1` charges (never below zero),
heal the monster by `rlev * unpower` capped at its missing hit points, and
stop. -/
def melee_effect_handler_DRAIN_CHARGES : Handler := fun _ o ctx =>
  let p := take_hit ctx.p ctx.damage o.dies
  if p.is_dead then { ctx with p := p }
  else
    match drainChargesScan p.inven (o.slots.take 10) with
    | none => { ctx with p := p }
    | some (i, ob) =>
        let unpower := ctx.rlev / (ob.kindLevel + 2) + 1
        let newcharge := ob.pval - unpower
        let heal : Int :=
          min ((ctx.rlev : Int) * unpower) (ctx.mon.maxhp - ctx.mon.hp)
        { ctx with
          p := { p with inven := setPval p.inven i newcharge },
          mon := { ctx.mon with hp := ctx.mon.hp + heal },
          obvious := true }

/-- `melee_effect_handler_EAT_GOLD`: apply the raw damage, stop if the
player died, mark obvious; unless paralyzed, a dex/level saving throw may
prevent the theft (with a 2-in-3 random blink); otherwise compute the steal
amount, deduct it, and when it is positive record the theft and force a
blink. -/
def melee_effect_handler_EAT_GOLD : Handler := fun ext o ctx =>
  let p := take_hit ctx.p ctx.damage o.dies
  if p.is_dead then { ctx with p := p }
  else
    let ctx := { ctx with obvious := true }
    if p.timed TMD_PARALYZED = 0 &&
        decide (o.roll100 < ext.adj_dex_safe p.stat_ind_dex + p.lev) then
      { ctx with p := p, blinked := ctx.blinked || (o.roll3 != 0) }
    else
      let gold := eatGoldAmount p.au o.r25 o.r3000
      let p := { p with au := p.au - gold }
      if gold = 0 then { ctx with p := p }
      else { ctx with p := p, goldStolen := gold, blinked := true }

/-- `melee_effect_handler_EAT_ITEM`: apply the raw damage, stop if the
player died; unless paralyzed, a dex/level saving throw prevents the theft
(blinking and marking obvious); otherwise scan up to 10 random slots for a
non-empty, non-artifact object, steal one unit of the first such object,
mark obvious, and blink. -/
def melee_effect_handler_EAT_ITEM : Handler := fun ext o ctx =>
  let p := take_hit ctx.p ctx.damage o.dies
  if p.is_dead then { ctx with p := p }
  else if p.timed TMD_PARALYZED = 0 &&
      decide (o.roll100 < ext.adj_dex_safe p.stat_ind_dex + p.lev) then
    { ctx with p := p, blinked := true, obvious := true }
  else
    match eatItemScan p.inven (o.slots.take 10) with
    | none => { ctx with p := p }
    | some (i, ob) =>
        { ctx with
          p := { p with inven := removeOneAt p.inven i },
          stolen := some { ob with number := 1 },
          obvious := true, blinked := true }

/-- `melee_effect_handler_EAT_FOOD`: apply the raw damage, stop if the
player died, scan up to 10 random slots for a non-empty edible object, and
destroy one unit of the first such object, marking obvious. -/
def melee_effect_handler_EAT_FOOD : Handler := fun _ o ctx =>
  let p := take_hit ctx.p ctx.damage o.dies
  if p.is_dead then { ctx with p := p }
  else
    match eatFoodScan p.inven (o.slots.take 10) with
    | none => { ctx with p := p }
    | some (i, ob) =>
        { ctx with
          p := { p with inven := removeOneAt p.inven i },
          eaten := some { ob with number := 1 },
          obvious := true }

/-- `melee_effect_handler_EAT_LIGHT`: apply the raw damage, stop if the
player died, run the drain-light effect, which reports an observation flag
through the obvious pointer. -/
def melee_effect_handler_EAT_LIGHT : Handler := fun _ o ctx =>
  let p := take_hit ctx.p ctx.damage o.dies
  if p.is_dead then { ctx with p := p }
  else { ctx with p := p, obvious := ctx.obvious || o.obs1 }

/-- `melee_effect_handler_ACID`: pure elemental acid attack. -/
def melee_effect_handler_ACID : Handler := fun ext o ctx =>
  melee_effect_elemental ext o ctx GF_ACID true

/-- `melee_effect_handler_ELEC`: pure elemental electricity attack. -/
def melee_effect_handler_ELEC : Handler := fun ext o ctx =>
  melee_effect_elemental ext o ctx GF_ELEC true

/-- `melee_effect_handler_FIRE`: pure elemental fire attack. -/
def melee_effect_handler_FIRE : Handler := fun ext o ctx =>
  melee_effect_elemental ext o ctx GF_FIRE true

/-- `melee_effect_handler_COLD`: pure elemental cold attack. -/
def melee_effect_handler_COLD : Handler := fun ext o ctx =>
  melee_effect_elemental ext o ctx GF_COLD true

/-- `melee_effect_handler_BLIND`: timed blindness, no saving throw. -/
def melee_effect_handler_BLIND : Handler := fun ext o ctx =>
  melee_effect_timed ext o ctx TMD_BLIND (10 + o.rA) OF_PROT_BLIND false

/-- `melee_effect_handler_CONFUSE`: timed confusion, no saving throw. -/
def melee_effect_handler_CONFUSE : Handler := fun ext o ctx =>
  melee_effect_timed ext o ctx TMD_CONFUSED (3 + o.rA) OF_PROT_CONF false

/-- `melee_effect_handler_TERRIFY`: timed fear with a saving throw. -/
def melee_effect_handler_TERRIFY : Handler := fun ext o ctx =>
  melee_effect_timed ext o ctx TMD_AFRAID (3 + o.rA) OF_PROT_FEAR true

/-- `melee_effect_handler_PARALYZE`: raise the damage to 1 when the player
is already paralyzed and the damage is below 1 (preventing perma-paralysis
with no damage), then timed paralysis with a saving throw. -/
def melee_effect_handler_PARALYZE : Handler := fun ext o ctx =>
  let ctx :=
    if 0 < ctx.p.timed TMD_PARALYZED ∧ ctx.damage < 1 then
      { ctx with damage := 1 }
    else ctx
  melee_effect_timed ext o ctx TMD_PARALYZED (3 + o.rA) OF_FREE_ACT true

/-- `melee_effect_handler_LOSE_STR`: drain strength. -/
def melee_effect_handler_LOSE_STR : Handler := fun _ o ctx =>
  melee_effect_stat o ctx STAT_STR

/-- `melee_effect_handler_LOSE_INT`: drain intelligence. -/
def melee_effect_handler_LOSE_INT : Handler := fun _ o ctx =>
  melee_effect_stat o ctx STAT_INT

/-- `melee_effect_handler_LOSE_WIS`: drain wisdom. -/
def melee_effect_handler_LOSE_WIS : Handler := fun _ o ctx =>
  melee_effect_stat o ctx STAT_WIS

/-- `melee_effect_handler_LOSE_DEX`: drain dexterity. -/
def melee_effect_handler_LOSE_DEX : Handler := fun _ o ctx =>
  melee_effect_stat o ctx STAT_DEX

/-- `melee_effect_handler_LOSE_CON`: drain constitution. -/
def melee_effect_handler_LOSE_CON : Handler := fun _ o ctx =>
  melee_effect_stat o ctx STAT_CON

/-- `melee_effect_handler_LOSE_ALL`: apply the raw damage, stop if the
player died, then drain all five stats in sequence, each forwarding an
observation flag through the obvious pointer. -/
def melee_effect_handler_LOSE_ALL : Handler := fun _ o ctx =>
  let p := take_hit ctx.p ctx.damage o.dies
  if p.is_dead then { ctx with p := p }
  else
    { ctx with
      p := p
      obvious := ctx.obvious || o.obs1 || o.obs2 || o.obs3 || o.obs4 ||
        o.obs5 }

/-- `melee_effect_handler_SHATTER`: mark obvious, armor-mitigate and apply
the damage, stop if the player died; when the mitigated damage exceeds 23,
trigger a radius-8 earthquake (which may move the player) and set
`do_break` when the player's position changed. -/
def melee_effect_handler_SHATTER : Handler := fun ext o ctx =>
  let ctx := { ctx with obvious := true }
  let damage : Int := ext.adjust_dam_armor ctx.damage ctx.ac
  let ctx := { ctx with damage := damage }
  let p := take_hit ctx.p damage o.dies
  if p.is_dead then { ctx with p := p }
  else if damage > 23 then
    let px_old := p.px
    let py_old := p.py
    let p := { p with px := o.quakeX, py := o.quakeY }
    { ctx with
      p := p
      quake := some 8
      do_break := ctx.do_break || (px_old != p.px) || (py_old != p.py) }
  else { ctx with p := p }

/-- `melee_effect_handler_EXP_10`: drain experience, resist chance 95,
base amount `damroll(10, 6)`. -/
def melee_effect_handler_EXP_10 : Handler := fun ext o ctx =>
  melee_effect_experience ext o ctx 95 o.rDam

/-- `melee_effect_handler_EXP_20`: drain experience, resist chance 90,
base amount `damroll(20, 6)`. -/
def melee_effect_handler_EXP_20 : Handler := fun ext o ctx =>
  melee_effect_experience ext o ctx 90 o.rDam

/-- `melee_effect_handler_EXP_40`: drain experience, resist chance 75,
base amount `damroll(40, 6)`. -/
def melee_effect_handler_EXP_40 : Handler := fun ext o ctx =>
  melee_effect_experience ext o ctx 75 o.rDam

/-- `melee_effect_handler_EXP_80`: drain experience, resist chance 50,
base amount `damroll(80, 6)`. -/
def melee_effect_handler_EXP_80 : Handler := fun ext o ctx =>
  melee_effect_experience ext o ctx 50 o.rDam

/-- `melee_effect_handler_HALLU`: apply the raw damage, stop if the player
died, then apply the hallucination timer, marking obvious when the timer
changed. -/
def melee_effect_handler_HALLU : Handler := fun ext o ctx =>
  let p := take_hit ctx.p ctx.damage o.dies
  if p.is_dead then { ctx with p := p }
  else
    let r := player_inc_timed ext p TMD_IMAGE (3 + o.rA)
    { ctx with p := r.1, obvious := ctx.obvious || r.2 }

/-- The static effect registry of `melee_handler_for_blow_effect`. -/
def effect_handlers : List (String × Handler) :=
  [("NONE", melee_effect_handler_NONE),
   ("HURT", melee_effect_handler_HURT),
   ("POISON", melee_effect_handler_POISON),
   ("DISENCHANT", melee_effect_handler_DISENCHANT),
   ("DRAIN_CHARGES", melee_effect_handler_DRAIN_CHARGES),
   ("EAT_GOLD", melee_effect_handler_EAT_GOLD),
   ("EAT_ITEM", melee_effect_handler_EAT_ITEM),
   ("EAT_FOOD", melee_effect_handler_EAT_FOOD),
   ("EAT_LIGHT", melee_effect_handler_EAT_LIGHT),
   ("ACID", melee_effect_handler_ACID),
   ("ELEC", melee_effect_handler_ELEC),
   ("FIRE", melee_effect_handler_FIRE),
   ("COLD", melee_effect_handler_COLD),
   ("BLIND", melee_effect_handler_BLIND),
   ("CONFUSE", melee_effect_handler_CONFUSE),
   ("TERRIFY", melee_effect_handler_TERRIFY),
   ("PARALYZE", melee_effect_handler_PARALYZE),
   ("LOSE_STR", melee_effect_handler_LOSE_STR),
   ("LOSE_INT", melee_effect_handler_LOSE_INT),
   ("LOSE_WIS", melee_effect_handler_LOSE_WIS),
   ("LOSE_DEX", melee_effect_handler_LOSE_DEX),
   ("LOSE_CON", melee_effect_handler_LOSE_CON),
   ("LOSE_ALL", melee_effect_handler_LOSE_ALL),
   ("SHATTER", melee_effect_handler_SHATTER),
   ("EXP_10", melee_effect_handler_EXP_10),
   ("EXP_20", melee_effect_handler_EXP_20),
   ("EXP_40", melee_effect_handler_EXP_40),
   ("EXP_80", melee_effect_handler_EXP_80),
   ("HALLU", melee_effect_handler_HALLU)]

/-- `melee_handler_for_blow_effect`: case-insensitive lookup in the
registry, `none` for unknown names. -/
def melee_handler_for_blow_effect (name : String) : Option Handler :=
  (effect_handlers.find? (fun e => e.1.toLower == name.toLower)).map
    (fun e => e.2)

/-! Concrete fixtures used by the witness theorems. -/

/-- Concrete external collaborators for witnesses: a simple armor curve,
half damage as elemental mitigation, timer cap 100, a constant
`adj_dex_safe` table, and a life-drain percentage of 10. -/
def extFix : Ext :=
  { adjust_dam_armor := fun dam ac => (dam - ac / 4).toNat
    adjust_dam := fun _ dam => (dam / 2).toNat
    timedMax := fun _ => 100
    adj_dex_safe := fun _ => 50
    life_drain_percent := 10 }

/-- Concrete player for witnesses. -/
def playerFix : Player :=
  { hp := 100
    is_dead := false
    exp := 1000
    au := 100
    lev := 10
    skill_save := 50
    stat_ind_dex := 3
    hold_life := true
    resist_disen := false
    timed := fun _ => 0
    px := 5
    py := 7
    inven := [] }

/-- Concrete context for witnesses. -/
def ctxFix : Ctx :=
  { p := playerFix
    mon := { hp := 20, maxhp := 50 }
    method_phys := false
    damage := 10
    ac := 12
    rlev := 10
    obvious := false
    blinked := false
    do_break := false
    goldStolen := 0
    stolen := none
    eaten := none
    quake := none
    expLost := 0 }

/-- Concrete oracle for witnesses. -/
def oFix : Oracle :=
  { dies := false
    roll100 := 99
    roll3 := 1
    r25 := 7
    r3000 := 42
    rA := 4
    rDam := 60
    slots := [0]
    quakeX := 6
    quakeY := 7
    obs1 := true
    obs2 := false
    obs3 := false
    obs4 := false
    obs5 := false }

/-- Claim C1: for every invocation of the elemental-damage family, the
final damage written to the context equals the maximum of the
armor-mitigated physical damage and the resistance-mitigated elemental
damage computed from the same raw damage; and whenever the blow method
deals no physical damage, the physical component is zero, so the final
damage equals the elemental-mitigated value. -/
theorem C1_elemental_final_damage (ext : Ext) (o : Oracle) (ctx : Ctx)
    (type : Nat) (pe : Bool) :
    (melee_effect_elemental ext o ctx type pe).damage =
      max
        (if ctx.method_phys then
          (ext.adjust_dam_armor ctx.damage (ctx.ac + 50) : Int)
         else 0)
        (ext.adjust_dam type ctx.damage : Int)
    ∧ (ctx.method_phys = false →
        (melee_effect_elemental ext o ctx type pe).damage =
          (ext.adjust_dam type ctx.damage : Int)) := by
  cases pe <;>
    constructor <;>
      simp only [melee_effect_elemental] <;>
        split_ifs <;> simp_all <;> omega

/-- Witness for C1: on a concrete context whose blow method deals no
physical damage, the final damage is the elemental-mitigated value. -/
theorem C1_elemental_final_damage_witness :
    (melee_effect_elemental extFix oFix ctxFix GF_FIRE true).damage =
      (extFix.adjust_dam GF_FIRE ctxFix.damage : Int) :=
  (C1_elemental_final_damage extFix oFix ctxFix GF_FIRE true).2 rfl

/-- Claim C2: for every gold-theft resolution reaching the theft branch,
with defender gold 100 the stolen amount lies in [2, 100] for every random
draw; with defender gold 1,000,000 it never exceeds
`floor(gold/20) + 3000`; the amount follows the spec's clamp formula; and
when the resulting amount is non-positive nothing is stolen. -/
theorem C2_eat_gold_amounts (ext : Ext) (o : Oracle) (ctx : Ctx)
    (h1 : 1 ≤ o.r25) (h2 : o.r25 ≤ 25) (h3 : 1 ≤ o.r3000)
    (h4 : o.r3000 ≤ 3000) (h0 : ctx.goldStolen = 0) :
    (2 ≤ eatGoldAmount 100 o.r25 o.r3000 ∧
      eatGoldAmount 100 o.r25 o.r3000 ≤ 100)
    ∧ eatGoldAmount 1000000 o.r25 o.r3000 ≤ 1000000 / 20 + 3000
    ∧ (∀ au, eatGoldAmount au o.r25 o.r3000 =
        eatGoldAmountSpec au o.r25 o.r3000)
    ∧ (eatGoldAmount (take_hit ctx.p ctx.damage o.dies).au o.r25 o.r3000
          = 0 →
        (melee_effect_handler_EAT_GOLD ext o ctx).goldStolen = 0 ∧
        (melee_effect_handler_EAT_GOLD ext o ctx).p.au = ctx.p.au) := by
  refine ⟨⟨?_, ?_⟩, ?_, ?_, ?_⟩
  · simp only [eatGoldAmount]
    split_ifs <;> omega
  · simp only [eatGoldAmount]
    split_ifs <;> omega
  · simp only [eatGoldAmount]
    split_ifs <;> omega
  · intro au
    simp only [eatGoldAmount, eatGoldAmountSpec]
    split_ifs <;> omega
  · intro hz
    simp only [melee_effect_handler_EAT_GOLD, take_hit] at hz ⊢
    split_ifs <;> simp_all

/-- Witness for C2: on concrete draws (7 and 42) the stolen amount from
100 gold is at least 2. -/
theorem C2_eat_gold_amounts_witness :
    2 ≤ eatGoldAmount 100 oFix.r25 oFix.r3000 :=
  ((C2_eat_gold_amounts extFix oFix ctxFix (by decide) (by decide)
    (by decide) (by decide) rfl).1).1

/-- Claim C3: for every experience-drain resolution in which the defender
survives and the drain is not fully negated, the computed drain equals
`baseAmount + floor(currentExperience / 100) * globalLifeDrainPercent`;
with the life-force-protection trait (but a failed resist check) exactly
`floor(drain / 10)` experience is removed, without it the full drain is
removed. -/
theorem C3_experience_drain (ext : Ext) (o : Oracle) (ctx : Ctx)
    (chance drain_amount : Nat)
    (hsurv : (take_hit ctx.p ctx.damage o.dies).is_dead = false)
    (hneg : ¬(ctx.p.hold_life = true ∧ o.roll100 < chance)) :
    (melee_effect_experience ext o ctx chance drain_amount).expLost =
      (if ctx.p.hold_life then
        (drain_amount + (ctx.p.exp / 100) * ext.life_drain_percent) / 10
       else drain_amount + (ctx.p.exp / 100) * ext.life_drain_percent)
    ∧ (melee_effect_experience ext o ctx chance drain_amount).p.exp =
        ctx.p.exp -
          (melee_effect_experience ext o ctx chance drain_amount).expLost
    := by
  simp only [melee_effect_experience, player_exp_lose, take_hit] at hsurv ⊢
  split_ifs <;> simp_all <;> omega

/-- Witness for C3: concrete defender with 1000 experience, life-drain
percentage 10, base amount 60, holding the protective trait with a failed
resist roll loses exactly `floor(160 / 10) = 16` experience. -/
theorem C3_experience_drain_witness :
    (melee_effect_experience extFix oFix ctxFix 95 60).expLost = 16 ∧
      (melee_effect_experience extFix oFix ctxFix 95 60).p.exp = 984 := by
  have h := C3_experience_drain extFix oFix ctxFix 95 60 rfl (by decide)
  exact ⟨by rw [h.1]; decide, by rw [h.2, h.1]; decide⟩

/-- Concrete context for the shatter witness: raw damage 120 mitigates to
117, above the earthquake threshold. -/
def ctxShatter : Ctx := { ctxFix with damage := 120 }

/-- Concrete context for the paralyze witness: the defender is already
paralyzed and the rolled damage is 0. -/
def ctxPar : Ctx :=
  { ctxFix with
    damage := 0
    p := { playerFix with
           timed := fun t => if t = TMD_PARALYZED then 5 else 0 } }

/-- Claim C4: for every timed-status resolution in which the defender
survives: a requested saving throw succeeds exactly when the uniform draw
in [0,100) is strictly below the save skill, and on success the status
timer is never extended while the context is marked obvious; on failure
(or with no save requested) the timer is increased by the given amount
(saturating at the cap) and the context is marked obvious exactly when the
timer actually changed. -/
theorem C4_timed_status (ext : Ext) (o : Oracle) (ctx : Ctx)
    (type amount of_flag : Nat) (attempt : Bool)
    (hsurv : (take_hit ctx.p ctx.damage o.dies).is_dead = false)
    (hobv : ctx.obvious = false) :
    ((attempt = true ∧ o.roll100 < ctx.p.skill_save) →
      (melee_effect_timed ext o ctx type amount of_flag attempt).p.timed
          type = ctx.p.timed type ∧
        (melee_effect_timed ext o ctx type amount of_flag attempt).obvious
          = true)
    ∧ ((attempt = false ∨ ¬(o.roll100 < ctx.p.skill_save)) →
      (melee_effect_timed ext o ctx type amount of_flag attempt).p.timed
          type = min (ctx.p.timed type + amount) (ext.timedMax type) ∧
        ((melee_effect_timed ext o ctx type amount of_flag
            attempt).obvious = true ↔
          (melee_effect_timed ext o ctx type amount of_flag
            attempt).p.timed type ≠ ctx.p.timed type)) := by
  simp only [melee_effect_timed, player_inc_timed, take_hit] at hsurv ⊢
  split_ifs <;> simp_all

/-- Witness for C4: on a concrete surviving defender with save skill 50
and roll 99, the saving throw fails, the blindness timer rises from 0 to
`min (0 + amount) 100`, and the effect is obvious exactly because the
timer changed. -/
theorem C4_timed_status_witness :
    (melee_effect_timed extFix oFix ctxFix TMD_BLIND 14 OF_PROT_BLIND
        true).p.timed TMD_BLIND =
      min (ctxFix.p.timed TMD_BLIND + 14) (extFix.timedMax TMD_BLIND) :=
  ((C4_timed_status extFix oFix ctxFix TMD_BLIND 14 OF_PROT_BLIND true
    rfl rfl).2 (Or.inr (by decide))).1

/-- Claim C5: for every SHATTER resolution in which the defender survives,
the radius-8 earthquake is triggered if and only if the armor-mitigated
damage exceeds 23, and the sequence-break flag is set if and only if the
defender's position after the devastation differs from the position before
it. -/
theorem C5_shatter (ext : Ext) (o : Oracle) (ctx : Ctx)
    (hsurv : (take_hit ctx.p
        (ext.adjust_dam_armor ctx.damage ctx.ac : Int) o.dies).is_dead
        = false)
    (hq : ctx.quake = none) (hb : ctx.do_break = false) :
    ((melee_effect_handler_SHATTER ext o ctx).quake = some 8 ↔
      23 < (ext.adjust_dam_armor ctx.damage ctx.ac : Int))
    ∧ ((melee_effect_handler_SHATTER ext o ctx).do_break = true ↔
      (23 < (ext.adjust_dam_armor ctx.damage ctx.ac : Int) ∧
        ¬(o.quakeX = ctx.p.px ∧ o.quakeY = ctx.p.py))) := by
  simp only [melee_effect_handler_SHATTER, take_hit] at hsurv ⊢
  split_ifs <;> simp_all <;> tauto

/-- Witness for C5: on a concrete surviving defender, mitigated damage 117
exceeds 23 and the earthquake moves the defender, so the sequence-break
flag is set. -/
theorem C5_shatter_witness :
    (melee_effect_handler_SHATTER extFix oFix ctxShatter).do_break
      = true :=
  (C5_shatter extFix oFix ctxShatter rfl rfl rfl).2.mpr
    ⟨by decide, by decide⟩

/-- Claim C10: for every PARALYZE resolution, when the defender already
has a nonzero paralysis timer and the rolled damage is below 1, the
handler raises the damage to exactly 1, so such a blow always deals at
least 1 damage; when the defender is not already paralyzed the damage is
left unchanged before the timed-status family runs. -/
theorem C10_paralyze_min_damage (ext : Ext) (o : Oracle) (ctx : Ctx) :
    ((0 < ctx.p.timed TMD_PARALYZED ∧ ctx.damage < 1) →
      (melee_effect_handler_PARALYZE ext o ctx).damage = 1)
    ∧ (0 < ctx.p.timed TMD_PARALYZED →
        1 ≤ (melee_effect_handler_PARALYZE ext o ctx).damage)
    ∧ (ctx.p.timed TMD_PARALYZED = 0 →
        (melee_effect_handler_PARALYZE ext o ctx).damage = ctx.damage)
    ∧ (melee_effect_handler_PARALYZE ext o ctx).p.hp =
        ctx.p.hp - (melee_effect_handler_PARALYZE ext o ctx).damage := by
  simp only [melee_effect_handler_PARALYZE, melee_effect_timed,
    player_inc_timed, take_hit]
  split_ifs <;> simp_all <;> omega

/-- Witness for C10: a paralyze blow with rolled damage 0 against an
already-paralyzed concrete defender deals exactly 1 damage. -/
theorem C10_paralyze_min_damage_witness :
    (melee_effect_handler_PARALYZE extFix oFix ctxPar).damage = 1 :=
  (C10_paralyze_min_damage extFix oFix ctxPar).1 ⟨by decide, by decide⟩

/-- A `getD` hit implies the index is within the list. -/
lemma getD_some_lt {α : Type} (l : List (Option α)) (i : Nat) (a : α)
    (h : l.getD i none = some a) : i < l.length := by
  induction l generalizing i with
  | nil => simp [List.getD] at h
  | cons x xs ih =>
      cases i with
      | zero => simp
      | succ n =>
          simp only [List.getD_cons_succ] at h
          simpa using ih n h

/-- Reading back the written slot of `List.set`. -/
lemma getD_set_self {α : Type} (l : List (Option α)) (i : Nat)
    (a : Option α) (h : i < l.length) : (l.set i a).getD i none = a := by
  induction l generalizing i with
  | nil => simp at h
  | cons x xs ih =>
      cases i with
      | zero => simp
      | succ n =>
          simp only [List.set_cons_succ, List.getD_cons_succ]
          exact ih n (by simpa using h)

/-- Reading any other slot of `List.set`. -/
lemma getD_set_ne {α : Type} (l : List (Option α)) (i j : Nat)
    (a : Option α) (h : j ≠ i) :
    (l.set i a).getD j none = l.getD j none := by
  induction l generalizing i j with
  | nil => simp
  | cons x xs ih =>
      cases i with
      | zero => cases j with
        | zero => exact absurd rfl h
        | succ m => simp
      | succ n =>
          cases j with
          | zero => simp
          | succ m =>
              simp only [List.set_cons_succ, List.getD_cons_succ]
              exact ih n m (fun hc => h (by rw [hc]))

/-- Soundness of the charge-drain scan: a hit names a slot holding a
charge-bearing object with at least one charge. -/
lemma drainChargesScan_sound (inven : List (Option Obj))
    (draws : List Nat) (i : Nat) (ob : Obj)
    (h : drainChargesScan inven draws = some (i, ob)) :
    inven.getD i none = some ob ∧ ob.canCharges = true ∧ 0 < ob.pval := by
  induction draws with
  | nil => simp [drainChargesScan] at h
  | cons d rest ih =>
      simp only [drainChargesScan] at h
      rcases hg : inven.getD d none with _ | ob2 <;> simp only [hg] at h
      · exact ih h
      · cases hb : (ob2.canCharges && decide (0 < ob2.pval)) with
        | false =>
            simp only [hb, Bool.false_eq_true, if_false] at h
            exact ih h
        | true =>
            simp only [hb, if_true] at h
            simp only [Option.some.injEq, Prod.mk.injEq] at h
            obtain ⟨rfl, rfl⟩ := h
            simp only [Bool.and_eq_true, decide_eq_true_eq] at hb
            exact ⟨hg, hb.1, hb.2⟩

/-- Soundness of the item-theft scan: a hit names a slot holding a
non-artifact object. -/
lemma eatItemScan_sound (inven : List (Option Obj)) (draws : List Nat)
    (i : Nat) (ob : Obj) (h : eatItemScan inven draws = some (i, ob)) :
    inven.getD i none = some ob ∧ ob.artifact = false := by
  induction draws with
  | nil => simp [eatItemScan] at h
  | cons d rest ih =>
      simp only [eatItemScan] at h
      rcases hg : inven.getD d none with _ | ob2 <;> simp only [hg] at h
      · exact ih h
      · cases hb : ob2.artifact with
        | true =>
            simp only [hb, if_true] at h
            exact ih h
        | false =>
            simp only [hb, Bool.false_eq_true, if_false] at h
            simp only [Option.some.injEq, Prod.mk.injEq] at h
            obtain ⟨rfl, rfl⟩ := h
            exact ⟨hg, hb⟩

/-- Soundness of the food-theft scan: a hit names a slot holding an edible
object. -/
lemma eatFoodScan_sound (inven : List (Option Obj)) (draws : List Nat)
    (i : Nat) (ob : Obj) (h : eatFoodScan inven draws = some (i, ob)) :
    inven.getD i none = some ob ∧ ob.edible = true := by
  induction draws with
  | nil => simp [eatFoodScan] at h
  | cons d rest ih =>
      simp only [eatFoodScan] at h
      rcases hg : inven.getD d none with _ | ob2 <;> simp only [hg] at h
      · exact ih h
      · cases hb : ob2.edible with
        | false =>
            simp only [hb, Bool.false_eq_true, if_false] at h
            exact ih h
        | true =>
            simp only [hb, if_true] at h
            simp only [Option.some.injEq, Prod.mk.injEq] at h
            obtain ⟨rfl, rfl⟩ := h
            exact ⟨hg, hb⟩

/-- Concrete charged wand fixture: one charge, kind level 0. -/
def objDrain : Obj :=
  { artifact := false
    edible := false
    canCharges := true
    pval := 1
    kindLevel := 0
    number := 1 }

/-- Concrete context for the charge-drain counterexample: attacker level
proxy 10, monster missing 1000 hit points, pack holding one wand with a
single charge. -/
def ctxDrain : Ctx :=
  { ctxFix with
    rlev := 10
    mon := { hp := 0, maxhp := 1000 }
    p := { playerFix with inven := [some objDrain] }
    damage := 0 }

/-- Counterexample to claim C6 as stated: with one charge in the wand
(`pval = 1`), kind level 0 and attacker level proxy 10, the requested
drain is `10 / 2 + 1 = 6`, so only 1 charge is actually drained (the count
floors at zero), yet the monster is healed by `rlev * 6 = 60`, not by
`rlev` times the 1 charge actually drained (which would be
`min (10 * 1) 1000 = 10`). -/
theorem C6_drain_charges_counterexample :
    (melee_effect_handler_DRAIN_CHARGES extFix oFix
        ctxDrain).p.inven.getD 0 none = some { objDrain with pval := 0 }
    ∧ (melee_effect_handler_DRAIN_CHARGES extFix oFix ctxDrain).mon.hp -
        ctxDrain.mon.hp = 60
    ∧ (60 : Int) ≠
        min ((ctxDrain.rlev : Int) * 1)
          (ctxDrain.mon.maxhp - ctxDrain.mon.hp) := by
  decide

/-- Claim C6 as amended: for every charge-drain resolution that finds a
charged wand or staff, the requested drain is
`floor(attackerLevelProxy / (itemLevel + 2)) + 1`, the item's charge count
drops by that amount but never below zero, the attacker is healed by
`attackerLevelProxy` multiplied by the requested drain (not by the charges
actually removed), capped at the attacker's missing hit points, and the
scan stops after the first successful drain (no other slot changes). -/
theorem C6_drain_charges_amended (ext : Ext) (o : Oracle) (ctx : Ctx)
    (i : Nat) (ob : Obj)
    (hsurv : (take_hit ctx.p ctx.damage o.dies).is_dead = false)
    (hscan : drainChargesScan ctx.p.inven (o.slots.take 10)
      = some (i, ob)) :
    ctx.p.inven.getD i none = some ob ∧ ob.canCharges = true ∧
      0 < ob.pval
    ∧ (melee_effect_handler_DRAIN_CHARGES ext o ctx).p.inven.getD i none
        = some { ob with
            pval := ob.pval - (ctx.rlev / (ob.kindLevel + 2) + 1) }
    ∧ (∀ j, j ≠ i →
        (melee_effect_handler_DRAIN_CHARGES ext o ctx).p.inven.getD j
          none = ctx.p.inven.getD j none)
    ∧ (melee_effect_handler_DRAIN_CHARGES ext o ctx).mon.hp =
        ctx.mon.hp +
          min ((ctx.rlev : Int) * (ctx.rlev / (ob.kindLevel + 2) + 1))
            (ctx.mon.maxhp - ctx.mon.hp) := by
  obtain ⟨hget, hcan, hpos⟩ :=
    drainChargesScan_sound ctx.p.inven (o.slots.take 10) i ob hscan
  have hlt : i < ctx.p.inven.length := getD_some_lt _ _ _ hget
  refine ⟨hget, hcan, hpos, ?_, ?_, ?_⟩ <;>
    simp only [melee_effect_handler_DRAIN_CHARGES, take_hit] at hsurv ⊢ <;>
      simp only [hsurv] at * <;>
        first
        | (simp only [Bool.false_eq_true, if_false, hscan, setPval, hget]
           rw [getD_set_self _ _ _ hlt])
        | (intro j hj
           simp only [Bool.false_eq_true, if_false, hscan, setPval, hget]
           rw [getD_set_ne _ _ _ _ hj])
        | simp [hscan]

/-- Witness for the amended C6: on the concrete wand fixture the slot's
charge count drops to zero and the other conjuncts evaluate. -/
theorem C6_drain_charges_amended_witness :
    (melee_effect_handler_DRAIN_CHARGES extFix oFix
        ctxDrain).p.inven.getD 0 none =
      some { objDrain with
             pval := objDrain.pval - (ctxDrain.rlev /
               (objDrain.kindLevel + 2) + 1) } := by
  have h := C6_drain_charges_amended extFix oFix ctxDrain 0 objDrain rfl
    (by decide)
  exact h.2.2.2.1

/-- Concrete artifact-flagged edible object. -/
def objArt : Obj :=
  { artifact := true
    edible := true
    canCharges := false
    pval := 0
    kindLevel := 0
    number := 1 }

/-- Concrete plain (non-artifact, inedible) object. -/
def objPlain : Obj :=
  { artifact := false
    edible := false
    canCharges := false
    pval := 0
    kindLevel := 0
    number := 1 }

/-- Concrete context whose pack holds one artifact-flagged edible
object. -/
def ctxArt : Ctx :=
  { ctxFix with p := { playerFix with inven := [some objArt] } }

/-- Concrete context whose pack holds one plain object. -/
def ctxSteal : Ctx :=
  { ctxFix with p := { playerFix with inven := [some objPlain] } }

/-- Counterexample to claim C7 as stated: the food-theft handler has no
artifact check, so on a pack holding an artifact-flagged edible object the
eaten object is that artifact. -/
theorem C7_theft_counterexample :
    (melee_effect_handler_EAT_FOOD extFix oFix ctxArt).eaten =
      some { objArt with number := 1 }
    ∧ objArt.artifact = true := by
  decide

/-- Claim C7 as amended: item theft never selects an artifact-flagged
object over any random slot draws, while food theft only filters on
edibility (an artifact-flagged edible object can be selected); every
selected food object is edible. -/
theorem C7_theft_selection_amended (ext : Ext) (o : Oracle) (ctx : Ctx)
    (hst : ctx.stolen = none) (het : ctx.eaten = none) :
    (∀ s, (melee_effect_handler_EAT_ITEM ext o ctx).stolen = some s →
      s.artifact = false)
    ∧ (∀ s, (melee_effect_handler_EAT_FOOD ext o ctx).eaten = some s →
      s.edible = true) := by
  constructor <;> intro s hs
  · simp only [melee_effect_handler_EAT_ITEM, take_hit] at hs
    split_ifs at hs with h1 h2
    · simp_all
    · simp_all
    · rcases hscan : eatItemScan
        (take_hit ctx.p ctx.damage o.dies).inven (o.slots.take 10) with
        _ | ⟨i, ob⟩ <;>
        simp only [take_hit] at hscan <;> rw [hscan] at hs
      · simp_all
      · have hart := (eatItemScan_sound _ _ _ _ hscan).2
        simp_all
        subst hs
        simp
  · simp only [melee_effect_handler_EAT_FOOD, take_hit] at hs
    split_ifs at hs with h1
    · simp_all
    · rcases hscan : eatFoodScan
        (take_hit ctx.p ctx.damage o.dies).inven (o.slots.take 10) with
        _ | ⟨i, ob⟩ <;>
        simp only [take_hit] at hscan <;> rw [hscan] at hs
      · simp_all
      · have hed := (eatFoodScan_sound _ _ _ _ hscan).2
        simp_all
        subst hs
        simp

/-- Witness for the amended C7: on a concrete failed saving throw against
a pack holding one plain object, that object is stolen and is not an
artifact. -/
theorem C7_theft_selection_amended_witness :
    ({ objPlain with number := 1 } : Obj).artifact = false :=
  (C7_theft_selection_amended extFix oFix ctxSteal rfl rfl).1
    { objPlain with number := 1 } (by decide)

/-- Concrete oracle whose save roll (10) is below the concrete dex/level
threshold (`adj_dex_safe + lev = 60`), so the saving throw succeeds. -/
def oSave : Oracle := { oFix with roll100 := 10 }

/-- Claim C8, evaluated on the code: on a successful dexterity/level
saving throw against item theft nothing is stolen and the context is
marked obvious, but the attacker disengages on EVERY such run (the blink
flag is set unconditionally, while the claim — matching the code's own
"Occasional blink anyway" comment and the gold handler's
`randint0(3)` pattern — says only sometimes).  The final conjunct checks
every save-succeeding roll 0..59 against threshold 60. -/
theorem C8_eat_item_save_always_blinks :
    ((melee_effect_handler_EAT_ITEM extFix oSave ctxFix).stolen = none
      ∧ (melee_effect_handler_EAT_ITEM extFix oSave ctxFix).obvious = true
      ∧ (melee_effect_handler_EAT_ITEM extFix oSave ctxFix).blinked
          = true)
    ∧ ((List.range 60).all fun r =>
        (melee_effect_handler_EAT_ITEM extFix { oFix with roll100 := r }
          ctxFix).blinked) = true := by
  decide

/-- Flag monotonicity for one handler: `obvious`, `blinked` and
`do_break` are never reset from true to false. -/
def FlagsMono (h : Handler) : Prop :=
  ∀ ext o ctx,
    (ctx.obvious = true → (h ext o ctx).obvious = true) ∧
    (ctx.blinked = true → (h ext o ctx).blinked = true) ∧
    (ctx.do_break = true → (h ext o ctx).do_break = true)

/-- The elemental family never resets a flag. -/
lemma elemental_mono (ext : Ext) (o : Oracle) (ctx : Ctx) (type : Nat)
    (pe : Bool) :
    (ctx.obvious = true →
      (melee_effect_elemental ext o ctx type pe).obvious = true) ∧
    (ctx.blinked = true →
      (melee_effect_elemental ext o ctx type pe).blinked = true) ∧
    (ctx.do_break = true →
      (melee_effect_elemental ext o ctx type pe).do_break = true) := by
  refine ⟨?_, ?_, ?_⟩ <;> intro hf <;>
    simp only [melee_effect_elemental] <;> split_ifs <;> simp_all

/-- The timed-status family never resets a flag. -/
lemma timed_mono (ext : Ext) (o : Oracle) (ctx : Ctx)
    (type amount f : Nat) (s : Bool) :
    (ctx.obvious = true →
      (melee_effect_timed ext o ctx type amount f s).obvious = true) ∧
    (ctx.blinked = true →
      (melee_effect_timed ext o ctx type amount f s).blinked = true) ∧
    (ctx.do_break = true →
      (melee_effect_timed ext o ctx type amount f s).do_break = true) := by
  refine ⟨?_, ?_, ?_⟩ <;> intro hf <;>
    simp only [melee_effect_timed, player_inc_timed, take_hit] <;>
      split_ifs <;> simp_all

/-- The stat-drain family never resets a flag. -/
lemma stat_mono (o : Oracle) (ctx : Ctx) (st : Nat) :
    (ctx.obvious = true → (melee_effect_stat o ctx st).obvious = true) ∧
    (ctx.blinked = true → (melee_effect_stat o ctx st).blinked = true) ∧
    (ctx.do_break = true →
      (melee_effect_stat o ctx st).do_break = true) := by
  refine ⟨?_, ?_, ?_⟩ <;> intro hf <;>
    simp only [melee_effect_stat, take_hit] <;> split_ifs <;> simp_all

/-- The experience-drain family never resets a flag. -/
lemma experience_mono (ext : Ext) (o : Oracle) (ctx : Ctx)
    (chance amount : Nat) :
    (ctx.obvious = true →
      (melee_effect_experience ext o ctx chance amount).obvious = true) ∧
    (ctx.blinked = true →
      (melee_effect_experience ext o ctx chance amount).blinked = true) ∧
    (ctx.do_break = true →
      (melee_effect_experience ext o ctx chance amount).do_break
        = true) := by
  refine ⟨?_, ?_, ?_⟩ <;> intro hf <;>
    simp only [melee_effect_experience, player_exp_lose, take_hit] <;>
      split_ifs <;> simp_all

lemma mono_NONE : FlagsMono melee_effect_handler_NONE := by
  intro ext o ctx
  refine ⟨?_, ?_, ?_⟩ <;> intro hf <;>
    simp_all [melee_effect_handler_NONE]

lemma mono_HURT : FlagsMono melee_effect_handler_HURT := by
  intro ext o ctx
  refine ⟨?_, ?_, ?_⟩ <;> intro hf <;>
    simp_all [melee_effect_handler_HURT, take_hit]

lemma mono_POISON : FlagsMono melee_effect_handler_POISON := by
  intro ext o ctx
  obtain ⟨e1, e2, e3⟩ := elemental_mono ext o ctx GF_POIS false
  refine ⟨?_, ?_, ?_⟩ <;> intro hf <;>
    simp only [melee_effect_handler_POISON, player_inc_timed] <;>
      split_ifs <;> simp_all

lemma mono_DISENCHANT : FlagsMono melee_effect_handler_DISENCHANT := by
  intro ext o ctx
  refine ⟨?_, ?_, ?_⟩ <;> intro hf <;>
    simp only [melee_effect_handler_DISENCHANT, take_hit] <;>
      split_ifs <;> simp_all

lemma mono_DRAIN_CHARGES :
    FlagsMono melee_effect_handler_DRAIN_CHARGES := by
  intro ext o ctx
  refine ⟨?_, ?_, ?_⟩ <;> intro hf <;>
    simp only [melee_effect_handler_DRAIN_CHARGES, take_hit] <;>
      (repeat' split) <;> simp_all

lemma mono_EAT_GOLD : FlagsMono melee_effect_handler_EAT_GOLD := by
  intro ext o ctx
  refine ⟨?_, ?_, ?_⟩ <;> intro hf <;>
    simp only [melee_effect_handler_EAT_GOLD, take_hit] <;>
      (repeat' split) <;> simp_all

lemma mono_EAT_ITEM : FlagsMono melee_effect_handler_EAT_ITEM := by
  intro ext o ctx
  refine ⟨?_, ?_, ?_⟩ <;> intro hf <;>
    simp only [melee_effect_handler_EAT_ITEM, take_hit] <;>
      (repeat' split) <;> simp_all

lemma mono_EAT_FOOD : FlagsMono melee_effect_handler_EAT_FOOD := by
  intro ext o ctx
  refine ⟨?_, ?_, ?_⟩ <;> intro hf <;>
    simp only [melee_effect_handler_EAT_FOOD, take_hit] <;>
      (repeat' split) <;> simp_all

lemma mono_EAT_LIGHT : FlagsMono melee_effect_handler_EAT_LIGHT := by
  intro ext o ctx
  refine ⟨?_, ?_, ?_⟩ <;> intro hf <;>
    simp only [melee_effect_handler_EAT_LIGHT, take_hit] <;>
      split_ifs <;> simp_all

lemma mono_ACID : FlagsMono melee_effect_handler_ACID := fun ext o ctx =>
  elemental_mono ext o ctx GF_ACID true

lemma mono_ELEC : FlagsMono melee_effect_handler_ELEC := fun ext o ctx =>
  elemental_mono ext o ctx GF_ELEC true

lemma mono_FIRE : FlagsMono melee_effect_handler_FIRE := fun ext o ctx =>
  elemental_mono ext o ctx GF_FIRE true

lemma mono_COLD : FlagsMono melee_effect_handler_COLD := fun ext o ctx =>
  elemental_mono ext o ctx GF_COLD true

lemma mono_BLIND : FlagsMono melee_effect_handler_BLIND :=
  fun ext o ctx => timed_mono ext o ctx TMD_BLIND (10 + o.rA)
    OF_PROT_BLIND false

lemma mono_CONFUSE : FlagsMono melee_effect_handler_CONFUSE :=
  fun ext o ctx => timed_mono ext o ctx TMD_CONFUSED (3 + o.rA)
    OF_PROT_CONF false

lemma mono_TERRIFY : FlagsMono melee_effect_handler_TERRIFY :=
  fun ext o ctx => timed_mono ext o ctx TMD_AFRAID (3 + o.rA)
    OF_PROT_FEAR true

lemma mono_PARALYZE : FlagsMono melee_effect_handler_PARALYZE := by
  intro ext o ctx
  simp only [melee_effect_handler_PARALYZE]
  split_ifs with h
  · exact timed_mono ext o { ctx with damage := 1 } TMD_PARALYZED
      (3 + o.rA) OF_FREE_ACT true
  · exact timed_mono ext o ctx TMD_PARALYZED (3 + o.rA) OF_FREE_ACT true

lemma mono_LOSE_STR : FlagsMono melee_effect_handler_LOSE_STR :=
  fun _ o ctx => stat_mono o ctx STAT_STR

lemma mono_LOSE_INT : FlagsMono melee_effect_handler_LOSE_INT :=
  fun _ o ctx => stat_mono o ctx STAT_INT

lemma mono_LOSE_WIS : FlagsMono melee_effect_handler_LOSE_WIS :=
  fun _ o ctx => stat_mono o ctx STAT_WIS

lemma mono_LOSE_DEX : FlagsMono melee_effect_handler_LOSE_DEX :=
  fun _ o ctx => stat_mono o ctx STAT_DEX

lemma mono_LOSE_CON : FlagsMono melee_effect_handler_LOSE_CON :=
  fun _ o ctx => stat_mono o ctx STAT_CON

lemma mono_LOSE_ALL : FlagsMono melee_effect_handler_LOSE_ALL := by
  intro ext o ctx
  refine ⟨?_, ?_, ?_⟩ <;> intro hf <;>
    simp only [melee_effect_handler_LOSE_ALL, take_hit] <;>
      split_ifs <;> simp_all

lemma mono_SHATTER : FlagsMono melee_effect_handler_SHATTER := by
  intro ext o ctx
  refine ⟨?_, ?_, ?_⟩ <;> intro hf <;>
    simp only [melee_effect_handler_SHATTER, take_hit] <;>
      split_ifs <;> simp_all

lemma mono_EXP_10 : FlagsMono melee_effect_handler_EXP_10 :=
  fun ext o ctx => experience_mono ext o ctx 95 o.rDam

lemma mono_EXP_20 : FlagsMono melee_effect_handler_EXP_20 :=
  fun ext o ctx => experience_mono ext o ctx 90 o.rDam

lemma mono_EXP_40 : FlagsMono melee_effect_handler_EXP_40 :=
  fun ext o ctx => experience_mono ext o ctx 75 o.rDam

lemma mono_EXP_80 : FlagsMono melee_effect_handler_EXP_80 :=
  fun ext o ctx => experience_mono ext o ctx 50 o.rDam

lemma mono_HALLU : FlagsMono melee_effect_handler_HALLU := by
  intro ext o ctx
  refine ⟨?_, ?_, ?_⟩ <;> intro hf <;>
    simp only [melee_effect_handler_HALLU, player_inc_timed, take_hit] <;>
      split_ifs <;> simp_all

/-- Claim C9: for every handler in the registry and every input context,
the output flags `obvious`, `blinked` and `do_break` are monotonic within
one resolution: each handler may set them to true but never resets any of
them from true back to false. -/
theorem C9_registry_flags_monotone :
    ∀ e ∈ effect_handlers, FlagsMono e.2 := by
  intro e he
  simp only [effect_handlers, List.mem_cons, List.not_mem_nil,
    or_false] at he
  rcases he with rfl | rfl | rfl | rfl | rfl | rfl | rfl | rfl | rfl |
    rfl | rfl | rfl | rfl | rfl | rfl | rfl | rfl | rfl | rfl | rfl |
    rfl | rfl | rfl | rfl | rfl | rfl | rfl | rfl | rfl
  exacts [mono_NONE, mono_HURT, mono_POISON, mono_DISENCHANT,
    mono_DRAIN_CHARGES, mono_EAT_GOLD, mono_EAT_ITEM, mono_EAT_FOOD,
    mono_EAT_LIGHT, mono_ACID, mono_ELEC, mono_FIRE, mono_COLD,
    mono_BLIND, mono_CONFUSE, mono_TERRIFY, mono_PARALYZE, mono_LOSE_STR,
    mono_LOSE_INT, mono_LOSE_WIS, mono_LOSE_DEX, mono_LOSE_CON,
    mono_LOSE_ALL, mono_SHATTER, mono_EXP_10, mono_EXP_20, mono_EXP_40,
    mono_EXP_80, mono_HALLU]

/-- Concrete context with all three output flags already true. -/
def ctxTrue : Ctx :=
  { ctxFix with obvious := true, blinked := true, do_break := true }

/-- Witness for C9: the registry's first handler keeps an already-true
obvious flag true on a concrete context. -/
theorem C9_registry_flags_monotone_witness :
    (melee_effect_handler_NONE extFix oFix ctxTrue).obvious = true :=
  ((C9_registry_flags_monotone ("NONE", melee_effect_handler_NONE)
    (List.mem_cons_self _ _)) extFix oFix ctxTrue).1 rfl

end MonBlows
